import Mathlib

set_option maxRecDepth 10000

namespace FluidWall

/-! Shallow embedding of the sensor-driven fluid-wall core from
src/fluidWall/fluidWall.cpp: boundary mapping, optical-flow force
translation, the splash emitter subsystem, the mode state machine and the
multi-user density compositor.  Field values are modelled as exact
rationals; C++ int arithmetic is modelled on Int with truncating division
made explicit. -/

/-- Grid resolution: allocateData sets the global N to N_DEF = 128
(command-line arguments are never parsed into N). -/
def N : Nat := 128

/-- Constant FLOW_SCALAR = 0.1f from the source. -/
def FLOW_SCALAR : ℚ := 1/10

/-- Constant NUM_SPLASH_ROWS = 80 from the source. -/
def NUM_SPLASH_ROWS : Int := 80

/-- Global density source strength; initialised to 20.0f and set to 20.0f
by every mode of changeMode. -/
def source : ℚ := 20

/-- Constant MAX_USERS = 6 from the source. -/
def MAX_USERS : Nat := 6

/-- Global MAX_EMITTERS = 200 from the source. -/
def MAX_EMITTERS : Nat := 200

/-- Global iterations_per_mode = 500, frames per mode for auto cycling. -/
def iterations_per_mode : Int := 500

/-- Global max_mode; initialised to 0 and never written anywhere else in
the source. -/
def max_mode : Int := 0

/-- Truncation toward zero of the fraction num/den, the conversion C++
performs when a floating-point value of that magnitude initialises an
int.  Int.tdiv is exactly C-style truncating division. -/
def cppTrunc (num den : Int) : Int := num.tdiv den

/-- Local variable of emitSplashes: `int velocityEmissionThreshold = -0.05`.
The initializer -5/100 is a C++ double truncated by the int declaration. -/
def velocityEmissionThreshold : Int := cppTrunc (-5) 100

/-- Modelled from the spec: the solver grid state of the Section 6
collaborator contract (class FluidSolver, whose sources are not under
src/).  Each cell holds a boundary flag, a density and the two velocity
components; coordinates are Int as in the C++ call sites. -/
structure Grid where
  bound : Int → Int → Bool
  dens : Int → Int → ℚ
  u : Int → Int → ℚ
  v : Int → Int → ℚ

/-- Grid with all fields zero, the state produced by the solver reset. -/
def Grid.zero : Grid := ⟨fun _ _ => false, fun _ _ => 0, fun _ _ => 0, fun _ _ => 0⟩

/-- Modelled from the spec: setBoundary(cell, bool) writes one cell of the
boundary field. -/
def setBoundAt (g : Grid) (x y : Int) (b : Bool) : Grid :=
  { g with bound := fun a c => if a = x ∧ c = y then b else g.bound a c }

/-- Modelled from the spec: isBoundary(cell). -/
def isBoundAt (g : Grid) (x y : Int) : Bool := g.bound x y

/-- Modelled from the spec: addHorzVelocity(cell, d) adds to the existing
horizontal velocity of one cell. -/
def addHorzVelocityAt (g : Grid) (x y : Int) (d : ℚ) : Grid :=
  { g with u := fun a c => if a = x ∧ c = y then g.u a c + d else g.u a c }

/-- Modelled from the spec: addVertVelocity(cell, d). -/
def addVertVelocityAt (g : Grid) (x y : Int) (d : ℚ) : Grid :=
  { g with v := fun a c => if a = x ∧ c = y then g.v a c + d else g.v a c }

/-- Modelled from the spec: addDensity(cell, d) on the single-user field. -/
def addDensityAt (g : Grid) (x y : Int) (d : ℚ) : Grid :=
  { g with dens := fun a c => if a = x ∧ c = y then g.dens a c + d else g.dens a c }

/-- Modelled from the spec: getDensity(cell) on the single-user field. -/
def getDensityAt (g : Grid) (x y : Int) : ℚ := g.dens x y

/-- Single-channel mask image, row-major as in cv::Mat::at(y, x); pixel
values are the unsigned char intensities. -/
structure Img where
  rows : Nat
  cols : Nat
  pix : Nat → Nat → Nat

/-- Inner loop of defineBoundsFromImage over one pixel row: for x from 0
while x < n, setBoundAt(x, y, pixel(y, x) > 0).  The source passes the
pixel coordinates to setBoundAt directly, without the +1 shift its
comment describes. -/
def boundsCols (g : Grid) (img : Img) (y : Nat) : Nat → Grid
  | 0 => g
  | n + 1 => setBoundAt (boundsCols g img y n) (n : Int) (y : Int) (decide (0 < img.pix y n))

/-- Outer loop of defineBoundsFromImage over the pixel rows 0 ≤ y < n. -/
def boundsRows (g : Grid) (img : Img) : Nat → Grid
  | 0 => g
  | n + 1 => boundsCols (boundsRows g img n) img n img.cols

/-- Boundary Mapper defineBoundsFromImage: translates every pixel of the
mask into a boundary flag of the solver. -/
def defineBoundsFromImage (g : Grid) (img : Img) : Grid := boundsRows g img img.rows

/-- Optical-flow field, indexed as flow.at(row, col) with a rational x and
y component per entry. -/
def Flow : Type := Int → Int → ℚ × ℚ

/-- Body of the computeOpticalFlow loop at one cell (x, y): adds
FLOW_SCALAR times the flow vector sampled at row y, column x to the
existing velocities of cell (x, y). -/
def flowCell (fl : Flow) (g : Grid) (y x : Int) : Grid :=
  addVertVelocityAt (addHorzVelocityAt g x y (FLOW_SCALAR * (fl y x).1)) x y
    (FLOW_SCALAR * (fl y x).2)

/-- Inner loop of computeOpticalFlow: for x from 1 while x < N, so the n
passed at the call site is N - 1 and the cells visited are x = 1..N-1. -/
def flowCols (fl : Flow) (g : Grid) (y : Int) : Nat → Grid
  | 0 => g
  | n + 1 => flowCell fl (flowCols fl g y n) y (1 + (n : Int))

/-- Outer loop of computeOpticalFlow: for y from 1 while y < N. -/
def flowRows (fl : Flow) (g : Grid) : Nat → Grid
  | 0 => g
  | n + 1 => flowCols fl (flowRows fl g n) (1 + (n : Int)) (N - 1)

/-- Flow Force Translator computeOpticalFlow.  When no previous frame
exists the function only swaps the image buffers and adds nothing; the
Farneback estimation itself is an external OpenCV call whose result is
the fl argument. -/
def computeOpticalFlow (prevExists : Bool) (g : Grid) (fl : Flow) : Grid :=
  if prevExists then flowRows fl g (N - 1) else g

/-- Emitter record from the source: center and velocity, lifespan and
elapsed life in frames, radius in cells, and the attributed user. -/
structure Emitter where
  center : Int × Int
  vel : ℚ × ℚ
  lifespan : Int
  life_elapsed : Int
  radius : Int
  userNo : Nat
  deriving DecidableEq

/-- Placeholder emitter pushed MAX_EMITTERS times by allocateData:
center (0,0), velocity (0,0), lifespan 1, life_elapsed 2, radius 1,
user 0. -/
def placeholderEmitter : Emitter := ⟨(0, 0), (0, 0), 1, 2, 1, 0⟩

/-- Temporal falloff scalar of renderEmitters.  In the source both fields
are int, so `(lifespan - life_elapsed) / lifespan` is a C++ integer
division (truncation toward zero) whose result is then widened to float. -/
def lifescalarOf (e : Emitter) : ℚ := (((e.lifespan - e.life_elapsed).tdiv e.lifespan : Int) : ℚ)

/-- Lower clamp of the emitter write window: `(c - r) < 1 ? 1 : (c - r)`. -/
def clampLow (c r : Int) : Int := if c - r < 1 then 1 else c - r

/-- Upper clamp of the emitter write window: `(c + r) > N ? N : (c + r)`. -/
def clampHigh (c r : Int) : Int := if c + r > (N : Int) then (N : Int) else c + r

/-- Inclusive integer interval as a list, the index set of a C++ for loop
from lo to hi. -/
def intRange (lo hi : Int) : List Int :=
  (List.range (hi + 1 - lo).toNat).map (fun (k : Nat) => lo + (k : Int))

/-- Per-cell injection body of renderEmitters: falloff scalars from the
center, velocity adds, then the density add scaled by the temporal
falloff.  The single-user branch of the density add is modelled; the
multi-user branch writes the same cell of the per-user field. -/
def injectCell (e : Emitter) (ls : ℚ) (g : Grid) (y x : Int) : Grid :=
  let vscalar : ℚ := |(y : ℚ) - (e.center.2 : ℚ)| / (e.radius : ℚ)
  let uscalar : ℚ := |(x : ℚ) - (e.center.1 : ℚ)| / (e.radius : ℚ)
  let dscalar : ℚ := (vscalar + uscalar) / 2
  let g1 := addHorzVelocityAt g x y (e.vel.1 * uscalar)
  let g2 := addVertVelocityAt g1 x y (e.vel.2 * vscalar)
  addDensityAt g2 x y (source * dscalar * ls)

/-- One x-row of the emitter injection window. -/
def injectRow (e : Emitter) (ls : ℚ) (g : Grid) (y : Int) : Grid :=
  (intRange (clampLow e.center.1 e.radius) (clampHigh e.center.1 e.radius)).foldl
    (fun g x => injectCell e ls g y x) g

/-- Whole injection pass of one emitter over its clamped window. -/
def injectEmitter (g : Grid) (e : Emitter) : Grid :=
  (intRange (clampLow e.center.2 e.radius) (clampHigh e.center.2 e.radius)).foldl
    (fun g y => injectRow e (lifescalarOf e) g y) g

/-- renderEmitters: walks the pool in order; an emitter whose
lifespan - life_elapsed equals exactly 0 is erased, every other emitter
injects into the grid and then has its life_elapsed incremented. -/
def renderEmitters : Grid → List Emitter → Grid × List Emitter
  | g, [] => (g, [])
  | g, e :: rest =>
    if e.lifespan - e.life_elapsed = 0 then renderEmitters g rest
    else
      let p := renderEmitters (injectEmitter g e) rest
      (p.1, { e with life_elapsed := e.life_elapsed + 1 } :: p.2)

/-- Pool update performed by one renderEmitters pass, stated as a
filterMap: exactly the emitters with lifespan - life_elapsed = 0 are
dropped, all others advance by one frame. -/
def advancePool (es : List Emitter) : List Emitter :=
  es.filterMap fun e =>
    if e.lifespan - e.life_elapsed = 0 then none
    else some { e with life_elapsed := e.life_elapsed + 1 }

/-- One simulation tick of the emitter subsystem alone: the renderEmitters
pass applied to a grid and pool pair. -/
def simStep (s : Grid × List Emitter) : Grid × List Emitter := renderEmitters s.1 s.2

/-- Run of simStep from the pool containing one placeholder emitter on a
zero grid, the pool allocateData builds (before the startup clear). -/
def leakRun : Nat → Grid × List Emitter
  | 0 => (Grid.zero, [placeholderEmitter])
  | n + 1 => simStep (leakRun n)

/-- createEmitterAt: builds an emitter with life_elapsed 0 and appends it
to the pool with push_back, unconditionally. -/
def createEmitterAt (es : List Emitter) (cx cy : Int) (fu fv : ℚ) (lifespan radius : Int)
    (userNo : Nat) : List Emitter :=
  es ++ [⟨(cx, cy), (fu, fv), lifespan, 0, radius, userNo⟩]

/-- Spawn decision of emitSplashes at column i, row j: on a false-to-true
vertical boundary transition, sample the flow at matrix position (i, j)
(as the source does), damp it by 0.8, and spawn at (i, j-1) with lifespan
6 and radius 3 when the vertical flow component is below the int-truncated
threshold.  The single-user branch (userNo 1) is modelled. -/
def splashSpawnAt (g : Grid) (fl : Flow) (es : List Emitter) (i j : Int) : List Emitter :=
  if !isBoundAt g i j && isBoundAt g i (j + 1) then
    let fu : ℚ := (8/10) * (fl i j).1
    let fv : ℚ := (8/10) * (fl i j).2
    if (fl i j).2 < (velocityEmissionThreshold : ℚ) then
      createEmitterAt es i (j - 1) fu fv 6 3 1
    else es
  else es

/-- Spawn scan of emitSplashes over the splash band: rows 1 ≤ j < 80,
columns 1 ≤ i ≤ N. -/
def splashScan (g : Grid) (fl : Flow) (es : List Emitter) : List Emitter :=
  (intRange 1 (NUM_SPLASH_ROWS - 1)).foldl
    (fun es j => (intRange 1 (N : Int)).foldl (fun es i => splashSpawnAt g fl es i j) es) es

/-- emitSplashes in the optical-flow mode: the spawn scan followed by the
renderEmitters pass.  The useFlow = false fallback branch injects fixed
impulses directly and owns no emitters; it is not needed by any claim. -/
def emitSplashes (g : Grid) (fl : Flow) (es : List Emitter) : Grid × List Emitter :=
  renderEmitters g (splashScan g fl es)

/-- Process-wide mutable state of the mode machine together with the
cleared collaborators.  changeCount counts the invocations of changeMode,
the externally observable transition events (console message and state
clear); it is observational instrumentation, not program data. -/
structure AppState where
  mode : Int
  iterations : Int
  autoChangeMode : Bool
  source : ℚ
  dvel : Bool
  dbound : Bool
  dusers : Bool
  useFlow : Bool
  useUserSolver : Bool
  useWhiteBackground : Bool
  emitters : List Emitter
  grid : Grid
  changeCount : Nat

/-- clearData: resets the active solver and clears the emitter pool. -/
def clearData (s : AppState) : AppState := { s with grid := Grid.zero, emitters := [] }

/-- Switch statement of changeMode: the configuration tuple of each mode
0..3; any other argument leaves the configuration untouched (the C++
switch has no default case). -/
def applyModeConfig (m : Int) (s : AppState) : AppState :=
  if m = 0 then
    { s with source := 20, dvel := false, dbound := false, dusers := false,
             useFlow := true, useUserSolver := false, useWhiteBackground := false }
  else if m = 1 then
    { s with source := 20, dvel := true, dbound := false, dusers := false,
             useFlow := false, useUserSolver := false, useWhiteBackground := false }
  else if m = 2 then
    { s with source := 20, dvel := false, dbound := false, dusers := true,
             useFlow := true, useUserSolver := true, useWhiteBackground := false }
  else if m = 3 then
    { s with source := 20, dvel := false, dbound := false, dusers := false,
             useFlow := true, useUserSolver := true, useWhiteBackground := true }
  else s

/-- changeMode: stores the new mode, clears all simulation data, then
applies the configuration of the target mode.  The field iterations is
nowhere assigned in its body. -/
def changeMode (newMode : Int) (s : AppState) : AppState :=
  applyModeConfig newMode (clearData { s with mode := newMode, changeCount := s.changeCount + 1 })

/-- tryChangeMode: when auto cycling is on and iterations exceeds
iterations_per_mode, zero the counter, advance the mode, wrap it past
max_mode to 0 and call changeMode; otherwise increment the counter. -/
def tryChangeMode (s : AppState) : AppState :=
  if s.autoChangeMode ∧ s.iterations > iterations_per_mode then
    let s1 := { s with iterations := 0 }
    let s2 := { s1 with mode := s1.mode + 1 }
    let s3 := if s2.mode > max_mode then { s2 with mode := 0 } else s2
    changeMode s3.mode s3
  else
    { s with iterations := s.iterations + 1 }

/-- Program state at the start of the frame loop: mode 0, counter 0, the
startup clear already applied, with automatic mode cycling switched on
for the auto-cycling scenario. -/
def s0 : AppState :=
  ⟨0, 0, true, 20, false, false, false, true, false, false, [], Grid.zero, 0⟩

/-- Frame counter evolution: n invocations of tryChangeMode from s0, one
per display frame. -/
def ticks : Nat → AppState
  | 0 => s0
  | n + 1 => tryChangeMode (ticks n)

/-- State with a mid-cycle counter value, for the manual-transition
scenario. -/
def s42 : AppState := { s0 with iterations := 42 }

/-- User palette Colors from the source, as exact rationals. -/
def Colors : Nat → ℚ × ℚ × ℚ
  | 0 => (0, 0, 0)
  | 1 => (0, 1, 1)
  | 2 => (1/2, 1, 0)
  | 3 => (1/2, 1/2, 0)
  | 4 => (0, 2/5, 3/5)
  | 5 => (0, 1, 0)
  | 6 => (1, 1/2, 0)
  | 7 => (1, 1, 0)
  | 8 => (1, 0, 0)
  | 9 => (0, 1/2, 1)
  | 10 => (1, 1, 1/2)
  | _ => (1, 1, 1)

/-- User palette ColorsWhiteBG from the source. -/
def ColorsWhiteBG : Nat → ℚ × ℚ × ℚ
  | 0 => (1/50, 1/50, 1/50)
  | 1 => (0, 1, 1)
  | 2 => (1/2, 1, 0)
  | 3 => (1, 1/2, 0)
  | 4 => (0, 0, 1)
  | 5 => (0, 1, 0)
  | 6 => (1, 1, 0)
  | 7 => (1, 0, 0)
  | 8 => (0, 1/2, 1)
  | 9 => (1/2, 0, 1)
  | 10 => (1, 1, 1/2)
  | _ => (1, 1, 1)

/-- Palette selection of getWeightedColor: the white-background variant
when useWhiteBackground is set, the dark variant otherwise. -/
def palette (useWhiteBackground : Bool) (i : Nat) : ℚ × ℚ × ℚ :=
  if useWhiteBackground then ColorsWhiteBG i else Colors i

/-- Multi-user compositor getWeightedColor: accumulates
palette[i] * density[i][cell] over the user slots 0..MAX_USERS-1 starting
from (0,0,0).  The per-user density field of the multi-user solver is the
dens argument (modelled from the spec contract getDensity(userId, cell)). -/
def getWeightedColor (useWhiteBackground : Bool) (dens : Nat → Int → Int → ℚ)
    (x y : Int) : ℚ × ℚ × ℚ :=
  (List.range MAX_USERS).foldl
    (fun RGB i =>
      let densityVal := dens i x y
      let c := palette useWhiteBackground i
      (RGB.1 + c.1 * densityVal, RGB.2.1 + c.2.1 * densityVal, RGB.2.2 + c.2.2 * densityVal))
    (0, 0, 0)

/-- All-positive mask of the grid resolution, a concrete Boundary Mapper
input. -/
def maskAllOnes : Img := ⟨128, 128, fun _ _ => 1⟩

/-- Constant unit flow field, a concrete Flow Force Translator input. -/
def flowOnes : Flow := fun _ _ => (1, 1)

/-- Grid whose only boundary cell is (5, 4): a single vertical boundary
transition at column 5 between rows 3 and 4, inside the splash band. -/
def gTrans : Grid := { Grid.zero with bound := fun a b => decide (a = 5 ∧ b = 4) }

/-- Constant flow with a slightly negative vertical component, above the
documented -0.05 threshold in magnitude terms. -/
def flowSmallNeg : Flow := fun _ _ => (0, -(1/100))

/-- Density field of the multi-user solver in which only user 1 has
density, with value 3 everywhere. -/
def densOneUser : Nat → Int → Int → ℚ := fun i _ _ => if i = 1 then 3 else 0

/-- A grid observation is preserved by a foldl all of whose steps preserve
it. -/
theorem foldl_pres {α β : Type} (f : Grid → α → Grid) (Q : Grid → β) (l : List α)
    (h : ∀ g a, a ∈ l → Q (f g a) = Q g) : ∀ g, Q (l.foldl f g) = Q g := by
  induction l with
  | nil => intro g; rfl
  | cons a t ih =>
    intro g
    rw [List.foldl_cons, ih (fun g b hb => h g b (List.mem_cons_of_mem a hb)) (f g a)]
    exact h g a (List.mem_cons_self a t)

/-- Membership in an inclusive integer interval gives its bounds. -/
theorem mem_intRange {a lo hi : Int} (h : a ∈ intRange lo hi) : lo ≤ a ∧ a ≤ hi := by
  unfold intRange at h
  rw [List.mem_map] at h
  obtain ⟨k, hk, rfl⟩ := h
  rw [List.mem_range] at hk
  omega

/-- The interval from a to a is the singleton list. -/
theorem intRange_self (a : Int) : intRange a a = [a] := by
  unfold intRange
  rw [show (a + 1 - a).toNat = 1 by omega, show List.range 1 = [0] from rfl]
  simp

@[simp] theorem setBoundAt_dens (g : Grid) (x y : Int) (b : Bool) :
    (setBoundAt g x y b).dens = g.dens := rfl

@[simp] theorem setBoundAt_u (g : Grid) (x y : Int) (b : Bool) :
    (setBoundAt g x y b).u = g.u := rfl

@[simp] theorem setBoundAt_v (g : Grid) (x y : Int) (b : Bool) :
    (setBoundAt g x y b).v = g.v := rfl

theorem setBoundAt_bound (g : Grid) (x y a c : Int) (b : Bool) :
    (setBoundAt g x y b).bound a c = if a = x ∧ c = y then b else g.bound a c := rfl

theorem injectCell_bound (e : Emitter) (ls : ℚ) (g : Grid) (y x : Int) :
    (injectCell e ls g y x).bound = g.bound := rfl

theorem injectCell_u (e : Emitter) (ls : ℚ) (g : Grid) (y x a b : Int) :
    (injectCell e ls g y x).u a b =
      if a = x ∧ b = y then
        g.u a b + e.vel.1 * (|(x : ℚ) - (e.center.1 : ℚ)| / (e.radius : ℚ))
      else g.u a b := rfl

theorem injectCell_v (e : Emitter) (ls : ℚ) (g : Grid) (y x a b : Int) :
    (injectCell e ls g y x).v a b =
      if a = x ∧ b = y then
        g.v a b + e.vel.2 * (|(y : ℚ) - (e.center.2 : ℚ)| / (e.radius : ℚ))
      else g.v a b := rfl

theorem injectCell_dens (e : Emitter) (ls : ℚ) (g : Grid) (y x a b : Int) :
    (injectCell e ls g y x).dens a b =
      if a = x ∧ b = y then
        g.dens a b +
          source * ((|(y : ℚ) - (e.center.2 : ℚ)| / (e.radius : ℚ) +
            |(x : ℚ) - (e.center.1 : ℚ)| / (e.radius : ℚ)) / 2) * ls
      else g.dens a b := rfl

theorem one_le_clampLow (c r : Int) : 1 ≤ clampLow c r := by
  unfold clampLow; split <;> omega

theorem clampHigh_le (c r : Int) : clampHigh c r ≤ (N : Int) := by
  unfold clampHigh; split <;> omega

@[simp] theorem changeMode_iterations (m : Int) (s : AppState) :
    (changeMode m s).iterations = s.iterations := by
  unfold changeMode applyModeConfig clearData; split_ifs <;> rfl

@[simp] theorem changeMode_changeCount (m : Int) (s : AppState) :
    (changeMode m s).changeCount = s.changeCount + 1 := by
  unfold changeMode applyModeConfig clearData; split_ifs <;> rfl

@[simp] theorem changeMode_mode (m : Int) (s : AppState) :
    (changeMode m s).mode = m := by
  unfold changeMode applyModeConfig clearData; split_ifs <;> rfl

@[simp] theorem changeMode_emitters (m : Int) (s : AppState) :
    (changeMode m s).emitters = [] := by
  unfold changeMode applyModeConfig clearData; split_ifs <;> rfl

@[simp] theorem changeMode_autoChangeMode (m : Int) (s : AppState) :
    (changeMode m s).autoChangeMode = s.autoChangeMode := by
  unfold changeMode applyModeConfig clearData; split_ifs <;> rfl

/-- C5: the claim says every manual changeMode call resets the
automatic-cycling frame counter to 0.  It does not: with the counter at
42, changeMode(2) leaves it at 42. -/
theorem C5_counterexample_iterations_kept :
    (changeMode 2 s42).iterations = 42 ∧ (changeMode 2 s42).iterations ≠ 0 := by
  rw [changeMode_iterations]
  exact ⟨rfl, by decide⟩

/-- C5 amended: a manual mode transition through changeMode leaves the
automatic-cycling frame counter unchanged, for every current counter
value and every target mode; only tryChangeMode writes the counter. -/
theorem C5_amended_changeMode_keeps_iterations :
    ∀ (s : AppState) (m : Int), (changeMode m s).iterations = s.iterations :=
  fun s m => changeMode_iterations m s

/-- C6: the claim says the pool never exceeds MAX_EMITTERS = 200.  A spawn
with the pool already at 200 yields 201 emitters: nothing is rejected or
evicted. -/
theorem C6_counterexample_pool_exceeds_max :
    MAX_EMITTERS <
      (createEmitterAt (List.replicate MAX_EMITTERS placeholderEmitter)
        64 10 1 (-2) 6 3 1).length := by
  simp [createEmitterAt, MAX_EMITTERS]

/-- C6 amended: createEmitterAt appends unconditionally, so every spawn
grows the pool by exactly one regardless of its current size; the pool is
not capacity-bounded and MAX_EMITTERS only sizes the initial allocation. -/
theorem C6_amended_spawn_appends :
    ∀ (es : List Emitter) (cx cy : Int) (fu fv : ℚ) (lifespan radius : Int) (userNo : Nat),
      (createEmitterAt es cx cy fu fv lifespan radius userNo).length = es.length + 1 := by
  intros
  simp [createEmitterAt]

theorem boundsCols_dens (g : Grid) (img : Img) (y : Nat) :
    ∀ n, (boundsCols g img y n).dens = g.dens := by
  intro n
  induction n with
  | zero => rfl
  | succ n ih => rw [boundsCols, setBoundAt_dens, ih]

theorem boundsCols_u (g : Grid) (img : Img) (y : Nat) :
    ∀ n, (boundsCols g img y n).u = g.u := by
  intro n
  induction n with
  | zero => rfl
  | succ n ih => rw [boundsCols, setBoundAt_u, ih]

theorem boundsCols_v (g : Grid) (img : Img) (y : Nat) :
    ∀ n, (boundsCols g img y n).v = g.v := by
  intro n
  induction n with
  | zero => rfl
  | succ n ih => rw [boundsCols, setBoundAt_v, ih]

/-- Characterization of one row pass of the Boundary Mapper: pixels
0 ≤ x < n of row y land in the flags of cells (x, y), all other cells are
untouched. -/
theorem boundsCols_bound (g : Grid) (img : Img) (y : Nat) :
    ∀ (n : Nat) (a b : Int), (boundsCols g img y n).bound a b =
      if 0 ≤ a ∧ a < (n : Int) ∧ b = (y : Int) then decide (0 < img.pix y a.toNat)
      else g.bound a b := by
  intro n
  induction n with
  | zero =>
    intro a b
    rw [boundsCols]
    split
    · omega
    · rfl
  | succ n ih =>
    intro a b
    rw [boundsCols, setBoundAt_bound]
    by_cases hcell : a = (n : Int) ∧ b = (y : Int)
    · rw [if_pos hcell, if_pos (by omega), show a.toNat = n by omega]
    · rw [if_neg hcell, ih a b]
      by_cases hc : 0 ≤ a ∧ a < (n : Int) ∧ b = (y : Int)
      · rw [if_pos hc, if_pos (by omega)]
      · rw [if_neg hc, if_neg (by omega)]

theorem boundsRows_dens (g : Grid) (img : Img) :
    ∀ n, (boundsRows g img n).dens = g.dens := by
  intro n
  induction n with
  | zero => rfl
  | succ n ih => rw [boundsRows, boundsCols_dens, ih]

theorem boundsRows_u (g : Grid) (img : Img) :
    ∀ n, (boundsRows g img n).u = g.u := by
  intro n
  induction n with
  | zero => rfl
  | succ n ih => rw [boundsRows, boundsCols_u, ih]

theorem boundsRows_v (g : Grid) (img : Img) :
    ∀ n, (boundsRows g img n).v = g.v := by
  intro n
  induction n with
  | zero => rfl
  | succ n ih => rw [boundsRows, boundsCols_v, ih]

/-- Characterization of the whole Boundary Mapper pass: pixel (x, y) with
0 ≤ x < cols and 0 ≤ y < n lands in the boundary flag of cell (x, y);
every other cell keeps its previous flag. -/
theorem boundsRows_bound (g : Grid) (img : Img) :
    ∀ (n : Nat) (a b : Int), (boundsRows g img n).bound a b =
      if 0 ≤ a ∧ a < (img.cols : Int) ∧ 0 ≤ b ∧ b < (n : Int) then
        decide (0 < img.pix b.toNat a.toNat)
      else g.bound a b := by
  intro n
  induction n with
  | zero =>
    intro a b
    rw [boundsRows]
    split
    · omega
    · rfl
  | succ n ih =>
    intro a b
    rw [boundsRows, boundsCols_bound]
    by_cases hrow : 0 ≤ a ∧ a < (img.cols : Int) ∧ b = (n : Int)
    · rw [if_pos hrow, if_pos (by omega), show b.toNat = n by omega]
    · rw [if_neg hrow, ih a b]
      by_cases hc : 0 ≤ a ∧ a < (img.cols : Int) ∧ 0 ≤ b ∧ b < (n : Int)
      · rw [if_pos hc, if_pos (by omega)]
      · rw [if_neg hc, if_neg (by omega)]

/-- C1: evaluation of the Boundary Mapper on the all-positive 128 by 128
mask from an all-clear grid.  The claim says every interior cell (x, y)
with 1 ≤ x, y ≤ 128 ends with a true flag; instead the interior cell
(128, 128) stays false, while the border cell (0, 0) is written true,
because the source omits the +1 coordinate shift its own comment
describes.  Density and velocity are untouched, as the claim states. -/
theorem C1_defineBounds_eval :
    (defineBoundsFromImage Grid.zero maskAllOnes).bound 128 128 = false ∧
    (defineBoundsFromImage Grid.zero maskAllOnes).bound 0 0 = true ∧
    (defineBoundsFromImage Grid.zero maskAllOnes).dens = Grid.zero.dens ∧
    (defineBoundsFromImage Grid.zero maskAllOnes).u = Grid.zero.u ∧
    (defineBoundsFromImage Grid.zero maskAllOnes).v = Grid.zero.v := by
  unfold defineBoundsFromImage
  refine ⟨?_, ?_, boundsRows_dens _ _ _, boundsRows_u _ _ _, boundsRows_v _ _ _⟩
  · rw [boundsRows_bound, if_neg (by norm_num [maskAllOnes])]
    rfl
  · rw [boundsRows_bound, if_pos (by norm_num [maskAllOnes])]
    rfl

theorem flowCell_u (fl : Flow) (g : Grid) (y x a b : Int) :
    (flowCell fl g y x).u a b =
      if a = x ∧ b = y then g.u a b + FLOW_SCALAR * (fl y x).1 else g.u a b := rfl

theorem flowCell_v (fl : Flow) (g : Grid) (y x a b : Int) :
    (flowCell fl g y x).v a b =
      if a = x ∧ b = y then g.v a b + FLOW_SCALAR * (fl y x).2 else g.v a b := rfl

theorem flowCell_dens (fl : Flow) (g : Grid) (y x : Int) :
    (flowCell fl g y x).dens = g.dens := rfl

theorem flowCell_bound (fl : Flow) (g : Grid) (y x : Int) :
    (flowCell fl g y x).bound = g.bound := rfl

theorem flowCols_dens (fl : Flow) (g : Grid) (y : Int) :
    ∀ n, (flowCols fl g y n).dens = g.dens := by
  intro n
  induction n with
  | zero => rfl
  | succ n ih => rw [flowCols, flowCell_dens, ih]

theorem flowCols_bound (fl : Flow) (g : Grid) (y : Int) :
    ∀ n, (flowCols fl g y n).bound = g.bound := by
  intro n
  induction n with
  | zero => rfl
  | succ n ih => rw [flowCols, flowCell_bound, ih]

/-- Characterization of the inner computeOpticalFlow loop: the n cells
x = 1..n of row y each gain the scaled flow sample, other cells keep
their horizontal velocity. -/
theorem flowCols_u (fl : Flow) (g : Grid) (y : Int) :
    ∀ (n : Nat) (a b : Int), (flowCols fl g y n).u a b =
      if 1 ≤ a ∧ a ≤ (n : Int) ∧ b = y then g.u a b + FLOW_SCALAR * (fl y a).1
      else g.u a b := by
  intro n
  induction n with
  | zero =>
    intro a b
    rw [flowCols]
    split
    · omega
    · rfl
  | succ n ih =>
    intro a b
    rw [flowCols, flowCell_u, ih a b]
    by_cases hcell : a = 1 + (n : Int) ∧ b = y
    · rw [if_pos hcell,
        if_neg (show ¬(1 ≤ a ∧ a ≤ (n : Int) ∧ b = y) by omega),
        if_pos (show 1 ≤ a ∧ a ≤ ((n + 1 : Nat) : Int) ∧ b = y by omega),
        hcell.1]
    · rw [if_neg hcell]
      by_cases hc : 1 ≤ a ∧ a ≤ (n : Int) ∧ b = y
      · rw [if_pos hc, if_pos (show 1 ≤ a ∧ a ≤ ((n + 1 : Nat) : Int) ∧ b = y by omega)]
      · rw [if_neg hc, if_neg (show ¬(1 ≤ a ∧ a ≤ ((n + 1 : Nat) : Int) ∧ b = y) by omega)]

/-- Same characterization for the vertical velocity. -/
theorem flowCols_v (fl : Flow) (g : Grid) (y : Int) :
    ∀ (n : Nat) (a b : Int), (flowCols fl g y n).v a b =
      if 1 ≤ a ∧ a ≤ (n : Int) ∧ b = y then g.v a b + FLOW_SCALAR * (fl y a).2
      else g.v a b := by
  intro n
  induction n with
  | zero =>
    intro a b
    rw [flowCols]
    split
    · omega
    · rfl
  | succ n ih =>
    intro a b
    rw [flowCols, flowCell_v, ih a b]
    by_cases hcell : a = 1 + (n : Int) ∧ b = y
    · rw [if_pos hcell,
        if_neg (show ¬(1 ≤ a ∧ a ≤ (n : Int) ∧ b = y) by omega),
        if_pos (show 1 ≤ a ∧ a ≤ ((n + 1 : Nat) : Int) ∧ b = y by omega),
        hcell.1]
    · rw [if_neg hcell]
      by_cases hc : 1 ≤ a ∧ a ≤ (n : Int) ∧ b = y
      · rw [if_pos hc, if_pos (show 1 ≤ a ∧ a ≤ ((n + 1 : Nat) : Int) ∧ b = y by omega)]
      · rw [if_neg hc, if_neg (show ¬(1 ≤ a ∧ a ≤ ((n + 1 : Nat) : Int) ∧ b = y) by omega)]

theorem flowRows_dens (fl : Flow) (g : Grid) :
    ∀ n, (flowRows fl g n).dens = g.dens := by
  intro n
  induction n with
  | zero => rfl
  | succ n ih => rw [flowRows, flowCols_dens, ih]

theorem flowRows_bound (fl : Flow) (g : Grid) :
    ∀ n, (flowRows fl g n).bound = g.bound := by
  intro n
  induction n with
  | zero => rfl
  | succ n ih => rw [flowRows, flowCols_bound, ih]

/-- Cast arithmetic for the inner loop count of computeOpticalFlow. -/
theorem castN_sub_one : ((N - 1 : Nat) : Int) = (N : Int) - 1 := by decide

/-- Characterization of the outer computeOpticalFlow loop: the cells with
1 ≤ x ≤ N-1 and 1 ≤ y ≤ n gain the scaled flow sample of matrix entry
(row y, col x); all other cells are untouched. -/
theorem flowRows_u (fl : Flow) (g : Grid) :
    ∀ (n : Nat) (a b : Int), (flowRows fl g n).u a b =
      if 1 ≤ a ∧ a ≤ (N : Int) - 1 ∧ 1 ≤ b ∧ b ≤ (n : Int) then
        g.u a b + FLOW_SCALAR * (fl b a).1
      else g.u a b := by
  intro n
  induction n with
  | zero =>
    intro a b
    rw [flowRows]
    split
    · omega
    · rfl
  | succ n ih =>
    intro a b
    rw [flowRows, flowCols_u, castN_sub_one, ih a b]
    by_cases hrow : 1 ≤ a ∧ a ≤ (N : Int) - 1 ∧ b = 1 + (n : Int)
    · rw [if_pos hrow,
        if_neg (show ¬(1 ≤ a ∧ a ≤ (N : Int) - 1 ∧ 1 ≤ b ∧ b ≤ (n : Int)) by omega),
        if_pos (show 1 ≤ a ∧ a ≤ (N : Int) - 1 ∧ 1 ≤ b ∧ b ≤ ((n + 1 : Nat) : Int) by omega),
        hrow.2.2]
    · rw [if_neg hrow]
      by_cases hc : 1 ≤ a ∧ a ≤ (N : Int) - 1 ∧ 1 ≤ b ∧ b ≤ (n : Int)
      · rw [if_pos hc,
          if_pos (show 1 ≤ a ∧ a ≤ (N : Int) - 1 ∧ 1 ≤ b ∧ b ≤ ((n + 1 : Nat) : Int) by omega)]
      · rw [if_neg hc,
          if_neg (show ¬(1 ≤ a ∧ a ≤ (N : Int) - 1 ∧ 1 ≤ b ∧ b ≤ ((n + 1 : Nat) : Int)) by omega)]

/-- Same characterization for the vertical velocity. -/
theorem flowRows_v (fl : Flow) (g : Grid) :
    ∀ (n : Nat) (a b : Int), (flowRows fl g n).v a b =
      if 1 ≤ a ∧ a ≤ (N : Int) - 1 ∧ 1 ≤ b ∧ b ≤ (n : Int) then
        g.v a b + FLOW_SCALAR * (fl b a).2
      else g.v a b := by
  intro n
  induction n with
  | zero =>
    intro a b
    rw [flowRows]
    split
    · omega
    · rfl
  | succ n ih =>
    intro a b
    rw [flowRows, flowCols_v, castN_sub_one, ih a b]
    by_cases hrow : 1 ≤ a ∧ a ≤ (N : Int) - 1 ∧ b = 1 + (n : Int)
    · rw [if_pos hrow,
        if_neg (show ¬(1 ≤ a ∧ a ≤ (N : Int) - 1 ∧ 1 ≤ b ∧ b ≤ (n : Int)) by omega),
        if_pos (show 1 ≤ a ∧ a ≤ (N : Int) - 1 ∧ 1 ≤ b ∧ b ≤ ((n + 1 : Nat) : Int) by omega),
        hrow.2.2]
    · rw [if_neg hrow]
      by_cases hc : 1 ≤ a ∧ a ≤ (N : Int) - 1 ∧ 1 ≤ b ∧ b ≤ (n : Int)
      · rw [if_pos hc,
          if_pos (show 1 ≤ a ∧ a ≤ (N : Int) - 1 ∧ 1 ≤ b ∧ b ≤ ((n + 1 : Nat) : Int) by omega)]
      · rw [if_neg hc,
          if_neg (show ¬(1 ≤ a ∧ a ≤ (N : Int) - 1 ∧ 1 ≤ b ∧ b ≤ ((n + 1 : Nat) : Int)) by omega)]

/-- C7: the claim says every interior cell 1 ≤ x, y ≤ N receives the
scaled flow contribution.  At cell (128, 1) with a constant unit flow the
horizontal velocity stays 0 instead of gaining FLOW_SCALAR times 1: the
loops stop at N-1. -/
theorem C7_counterexample_last_column_unchanged :
    (computeOpticalFlow true Grid.zero flowOnes).u 128 1 ≠
      Grid.zero.u 128 1 + FLOW_SCALAR * (flowOnes 1 128).1 := by
  unfold computeOpticalFlow
  rw [if_pos rfl, flowRows_u, if_neg (by norm_num [N])]
  norm_num [Grid.zero, flowOnes, FLOW_SCALAR]

/-- C7 amended: when a previous frame exists, computeOpticalFlow adds the
fixed gain times the flow sample to the existing horizontal and vertical
velocity of every cell with 1 ≤ x ≤ N-1 and 1 ≤ y ≤ N-1 (not N), leaves
every other cell's velocity alone, writes no density and no boundary
flags, and is the identity when no previous frame exists. -/
theorem C7_amended_flow_additive_on_subinterior :
    ∀ (g : Grid) (fl : Flow) (a b : Int),
      ((computeOpticalFlow true g fl).u a b =
        if 1 ≤ a ∧ a ≤ (N : Int) - 1 ∧ 1 ≤ b ∧ b ≤ (N : Int) - 1 then
          g.u a b + FLOW_SCALAR * (fl b a).1
        else g.u a b) ∧
      ((computeOpticalFlow true g fl).v a b =
        if 1 ≤ a ∧ a ≤ (N : Int) - 1 ∧ 1 ≤ b ∧ b ≤ (N : Int) - 1 then
          g.v a b + FLOW_SCALAR * (fl b a).2
        else g.v a b) ∧
      (computeOpticalFlow true g fl).dens = g.dens ∧
      (computeOpticalFlow true g fl).bound = g.bound ∧
      computeOpticalFlow false g fl = g := by
  intro g fl a b
  unfold computeOpticalFlow
  rw [if_pos rfl]
  refine ⟨?_, ?_, flowRows_dens _ _ _, flowRows_bound _ _ _, rfl⟩
  · rw [flowRows_u, castN_sub_one]
  · rw [flowRows_v, castN_sub_one]

theorem injectCell_dens_zero (e : Emitter) (g : Grid) (y x a b : Int) :
    (injectCell e 0 g y x).dens a b = g.dens a b := by
  rw [injectCell_dens]
  split
  · rw [mul_zero, add_zero]
  · rfl

theorem injectRow_dens_zero (e : Emitter) (y a b : Int) :
    ∀ g, (injectRow e 0 g y).dens a b = g.dens a b := by
  intro g
  unfold injectRow
  exact foldl_pres _ (fun g => g.dens a b) _ (fun g2 x _ => injectCell_dens_zero e g2 y x a b) g

/-- An emitter whose integer-division lifescalar is 0 injects exactly zero
density at every cell. -/
theorem injectEmitter_dens_of_ls_zero (e : Emitter) (h : lifescalarOf e = 0) :
    ∀ (g : Grid) (a b : Int), (injectEmitter g e).dens a b = g.dens a b := by
  intro g a b
  unfold injectEmitter
  simp only [h]
  exact foldl_pres _ (fun g => g.dens a b) _ (fun g2 y _ => injectRow_dens_zero e y a b g2) g

/-- C2: evaluation of the per-tick injection at the failing inputs.  The
claim says density sourceStrength * densityScalar * lifeScalar with a
linear, strictly decreasing lifeScalar that is still positive on the
final active frame.  Because lifespan and life_elapsed are C++ ints, the
lifescalar is computed with integer division and equals 0 on every tick
after the first: an emitter with lifespan 6 injects exactly zero density
on its second tick (life_elapsed 1) and on its final active frame
(life_elapsed 5), whatever its center, radius, velocity and user. -/
theorem C2_integer_division_kills_falloff :
    ∀ (g : Grid) (cx cy : Int) (vx vy : ℚ) (r : Int) (un : Nat) (a b : Int),
      (injectEmitter g ⟨(cx, cy), (vx, vy), 6, 1, r, un⟩).dens a b = g.dens a b ∧
      (injectEmitter g ⟨(cx, cy), (vx, vy), 6, 5, r, un⟩).dens a b = g.dens a b := by
  intro g cx cy vx vy r un a b
  constructor
  · refine injectEmitter_dens_of_ls_zero _ ?_ g a b
    unfold lifescalarOf
    norm_num [show ((5 : Int)).tdiv 6 = 0 from by decide]
  · refine injectEmitter_dens_of_ls_zero _ ?_ g a b
    unfold lifescalarOf
    norm_num [show ((1 : Int)).tdiv 6 = 0 from by decide]

theorem injectRow_outside (e : Emitter) (ls : ℚ) (y a b : Int)
    (hy1 : 1 ≤ y) (hy2 : y ≤ (N : Int))
    (h : a < 1 ∨ (N : Int) < a ∨ b < 1 ∨ (N : Int) < b) :
    ∀ g, ((injectRow e ls g y).u a b, (injectRow e ls g y).v a b, (injectRow e ls g y).dens a b)
      = (g.u a b, g.v a b, g.dens a b) := by
  intro g
  unfold injectRow
  refine foldl_pres _ (fun g => (g.u a b, g.v a b, g.dens a b)) _ ?_ g
  intro g2 x hx
  obtain ⟨hx1, hx2⟩ := mem_intRange hx
  have hxx1 : 1 ≤ x := le_trans (one_le_clampLow _ _) hx1
  have hxx2 : x ≤ (N : Int) := le_trans hx2 (clampHigh_le _ _)
  have hne : ¬(a = x ∧ b = y) := by omega
  simp [injectCell_u, injectCell_v, injectCell_dens, hne]

theorem injectEmitter_outside (g : Grid) (e : Emitter) (a b : Int)
    (h : a < 1 ∨ (N : Int) < a ∨ b < 1 ∨ (N : Int) < b) :
    ((injectEmitter g e).u a b, (injectEmitter g e).v a b, (injectEmitter g e).dens a b)
      = (g.u a b, g.v a b, g.dens a b) := by
  unfold injectEmitter
  refine foldl_pres _ (fun g => (g.u a b, g.v a b, g.dens a b)) _ ?_ g
  intro g2 y hy
  obtain ⟨hy1, hy2⟩ := mem_intRange hy
  exact injectRow_outside e _ y a b (le_trans (one_le_clampLow _ _) hy1)
    (le_trans hy2 (clampHigh_le _ _)) h g2

/-- C8: the injection pass of renderEmitters only ever writes velocity and
density to interior cells 1 ≤ x, y ≤ N: every cell outside that window
keeps its exact velocity and density values, for every pool and every
emitter geometry, including centers at or beyond the grid edge. -/
theorem C8_render_writes_interior_only :
    ∀ (g : Grid) (es : List Emitter) (a b : Int),
      (a < 1 ∨ (N : Int) < a ∨ b < 1 ∨ (N : Int) < b) →
      (renderEmitters g es).1.u a b = g.u a b ∧
      (renderEmitters g es).1.v a b = g.v a b ∧
      (renderEmitters g es).1.dens a b = g.dens a b := by
  intro g es a b h
  induction es generalizing g with
  | nil => exact ⟨rfl, rfl, rfl⟩
  | cons e t ih =>
    rw [renderEmitters]
    split
    · exact ih g
    · show (renderEmitters (injectEmitter g e) t).1.u a b = g.u a b ∧
        (renderEmitters (injectEmitter g e) t).1.v a b = g.v a b ∧
        (renderEmitters (injectEmitter g e) t).1.dens a b = g.dens a b
      have h2 := injectEmitter_outside g e a b h
      simp only [Prod.mk.injEq] at h2
      obtain ⟨h2u, h2v, h2d⟩ := h2
      obtain ⟨h3u, h3v, h3d⟩ := ih (injectEmitter g e)
      exact ⟨h3u.trans h2u, h3v.trans h2v, h3d.trans h2d⟩

/-- C8 witness: an emitter of radius 3 centered on the corner interior
cell (1, 1) leaves the border cell (0, 0) untouched. -/
theorem C8_witness :
    (renderEmitters Grid.zero [⟨(1, 1), (1, 1), 6, 0, 3, 1⟩]).1.u 0 0 = Grid.zero.u 0 0 ∧
    (renderEmitters Grid.zero [⟨(1, 1), (1, 1), 6, 0, 3, 1⟩]).1.v 0 0 = Grid.zero.v 0 0 ∧
    (renderEmitters Grid.zero [⟨(1, 1), (1, 1), 6, 0, 3, 1⟩]).1.dens 0 0 = Grid.zero.dens 0 0 :=
  C8_render_writes_interior_only Grid.zero [⟨(1, 1), (1, 1), 6, 0, 3, 1⟩] 0 0
    (Or.inl (by decide))

theorem advancePool_cons (e : Emitter) (t : List Emitter) :
    advancePool (e :: t) =
      if e.lifespan - e.life_elapsed = 0 then advancePool t
      else { e with life_elapsed := e.life_elapsed + 1 } :: advancePool t := by
  unfold advancePool
  rw [List.filterMap_cons]
  split
  · split
    · rfl
    · simp_all
  · split
    · simp_all
    · simp_all

/-- The pool after one renderEmitters pass is exactly the advancePool
filterMap of the previous pool: erase precisely on
lifespan - life_elapsed = 0, advance everything else. -/
theorem renderEmitters_pool (es : List Emitter) :
    ∀ g, (renderEmitters g es).2 = advancePool es := by
  induction es with
  | nil => intro g; rfl
  | cons e t ih =>
    intro g
    rw [renderEmitters, advancePool_cons]
    by_cases hexp : e.lifespan - e.life_elapsed = 0
    · rw [if_pos hexp, if_pos hexp, ih g]
    · rw [if_neg hexp, if_neg hexp]
      show { e with life_elapsed := e.life_elapsed + 1 } ::
          (renderEmitters (injectEmitter g e) t).2 = _
      rw [ih (injectEmitter g e)]

theorem leakRun_pool (k : Nat) :
    (leakRun k).2 = [⟨(0, 0), (0, 0), 1, 2 + (k : Int), 1, 0⟩] := by
  induction k with
  | zero => simp [leakRun, placeholderEmitter]
  | succ n ih =>
    rw [show leakRun (n + 1) = simStep (leakRun n) from rfl]
    unfold simStep
    rw [renderEmitters_pool, ih, advancePool_cons]
    have hc : ¬((⟨(0, 0), (0, 0), 1, 2 + (n : Int), 1, 0⟩ : Emitter).lifespan -
        (⟨(0, 0), (0, 0), 1, 2 + (n : Int), 1, 0⟩ : Emitter).life_elapsed = 0) := by
      show ¬((1 : Int) - (2 + (n : Int)) = 0)
      omega
    rw [if_neg hc]
    show ({ (⟨(0, 0), (0, 0), 1, 2 + (n : Int), 1, 0⟩ : Emitter) with
      life_elapsed := 2 + (n : Int) + 1 } : Emitter) :: advancePool [] = _
    simp [advancePool, Emitter.mk.injEq]
    ring

/-- One renderEmitters pass over the stuck placeholder emitter keeps it
and adds a nonzero density contribution at its single clamped cell
(1, 1). -/
theorem leak_step_dens (g : Grid) (k : Nat) :
    (renderEmitters g [(⟨(0, 0), (0, 0), 1, 2 + (k : Int), 1, 0⟩ : Emitter)]).1.dens 1 1 =
      g.dens 1 1 + source * (1 - (2 + (k : ℚ))) := by
  have hc : ¬((⟨(0, 0), (0, 0), 1, 2 + (k : Int), 1, 0⟩ : Emitter).lifespan -
      (⟨(0, 0), (0, 0), 1, 2 + (k : Int), 1, 0⟩ : Emitter).life_elapsed = 0) := by
    show ¬((1 : Int) - (2 + (k : Int)) = 0)
    omega
  rw [renderEmitters, if_neg hc]
  show (injectEmitter g _).dens 1 1 = _
  have hls : lifescalarOf (⟨(0, 0), (0, 0), 1, 2 + (k : Int), 1, 0⟩ : Emitter) =
      1 - (2 + (k : ℚ)) := by
    unfold lifescalarOf
    show (((1 : Int) - (2 + (k : Int))).tdiv 1 : ℚ) = _
    rw [Int.tdiv_one]
    push_cast
    ring
  unfold injectEmitter
  rw [hls]
  show ((intRange (clampLow 0 1) (clampHigh 0 1)).foldl _ g).dens 1 1 = _
  rw [show clampLow (0 : Int) 1 = 1 from by decide, show clampHigh (0 : Int) 1 = 1 from by decide,
    intRange_self]
  rw [List.foldl_cons, List.foldl_nil]
  unfold injectRow
  rw [show clampLow (0 : Int) 1 = 1 from by decide, show clampHigh (0 : Int) 1 = 1 from by decide,
    intRange_self]
  rw [List.foldl_cons, List.foldl_nil]
  rw [injectCell_dens, if_pos ⟨rfl, rfl⟩]
  norm_num

/-- C10: renderEmitters erases an emitter exactly when
lifespan - life_elapsed = 0 (first conjunct, the advancePool
characterization of the pool update).  Consequently the placeholder
emitters built by allocateData, with life_elapsed 2 beyond lifespan 1,
survive every tick: after k ticks the pool still holds the emitter with
life_elapsed 2 + k, and every further tick changes the density of cell
(1, 1), so the stuck emitter keeps injecting until an external clear
empties the pool (second conjunct). -/
theorem C10_expired_mismatch_never_removed :
    (∀ (g : Grid) (es : List Emitter), (renderEmitters g es).2 = advancePool es) ∧
    (∀ k : Nat,
      (leakRun k).2 = [⟨(0, 0), (0, 0), 1, 2 + (k : Int), 1, 0⟩] ∧
      (leakRun (k + 1)).1.dens 1 1 ≠ (leakRun k).1.dens 1 1) := by
  refine ⟨fun g es => renderEmitters_pool es g, fun k => ⟨leakRun_pool k, ?_⟩⟩
  rw [show leakRun (k + 1) = simStep (leakRun k) from rfl]
  unfold simStep
  rw [leakRun_pool k, leak_step_dens]
  have hk : (0 : ℚ) ≤ (k : ℚ) := Nat.cast_nonneg k
  have hs : source * (1 - (2 + (k : ℚ))) < 0 := by
    have h1 : 1 - (2 + (k : ℚ)) < 0 := by linarith
    have h2 : (0 : ℚ) < source := by norm_num [source]
    exact mul_neg_of_pos_of_neg h2 h1
  intro hh
  have hzero : source * (1 - (2 + (k : ℚ))) = 0 := by linarith
  linarith

/-- C3: evaluation of the spawn decision at the failing input.  The claim
says an emitter is spawned iff the vertical flow component is more
negative than -0.05.  The int declaration truncates the threshold to 0,
so at a false-to-true boundary transition (column 5, rows 3 to 4) with
vertical flow -1/100 — which is not below -5/100 — the code does spawn an
emitter, centered one row above at (5, 2) with lifespan 6, radius 3 and
velocity 0.8 times the sampled flow. -/
theorem C3_splash_threshold_eval :
    velocityEmissionThreshold = 0 ∧
    splashSpawnAt gTrans flowSmallNeg [] 5 3 = [⟨(5, 2), (0, -(1/125)), 6, 0, 3, 1⟩] ∧
    ¬((flowSmallNeg 5 3).2 < -(5/100 : ℚ)) := by
  refine ⟨by decide, ?_, by norm_num [flowSmallNeg]⟩
  unfold splashSpawnAt
  norm_num [show isBoundAt gTrans 5 3 = false from by decide,
    show isBoundAt gTrans 5 4 = true from by decide,
    flowSmallNeg, velocityEmissionThreshold, cppTrunc,
    show ((-5 : Int)).tdiv 100 = 0 from by decide,
    createEmitterAt, Emitter.mk.injEq]

/-- Invariant of the first 501 frames with auto cycling on: each frame
only increments the counter, no transition fires, mode stays 0. -/
theorem ticks_char : ∀ k : Nat, k ≤ 501 →
    (ticks k).iterations = (k : Int) ∧ (ticks k).changeCount = 0 ∧
    (ticks k).mode = 0 ∧ (ticks k).autoChangeMode = true := by
  intro k
  induction k with
  | zero => intro _; exact ⟨rfl, rfl, rfl, rfl⟩
  | succ n ih =>
    intro hn
    obtain ⟨h1, h2, h3, h4⟩ := ih (by omega)
    rw [show ticks (n + 1) = tryChangeMode (ticks n) from rfl]
    unfold tryChangeMode
    rw [if_neg ?hcond]
    case hcond =>
      rintro ⟨ha, hb⟩
      rw [h1] at hb
      simp only [iterations_per_mode] at hb
      omega
    refine ⟨?_, h2, h3, h4⟩
    show (ticks n).iterations + 1 = _
    rw [h1]
    push_cast
    ring

/-- C4: the claim says that after exactly 501 ticks from a zero counter
the mode has advanced once and the counter was reset.  After 501 ticks no
transition has fired at all: the counter is 501, not 0, and the mode is
still the initial one. -/
theorem C4_counterexample_501_ticks :
    (ticks 501).iterations = 501 ∧ (ticks 501).changeCount = 0 ∧ (ticks 501).mode = 0 := by
  obtain ⟨h1, h2, h3, _⟩ := ticks_char 501 le_rfl
  exact ⟨by rw [h1]; norm_num, h2, h3⟩

/-- A firing tick of the auto cycler from mode 0: one changeMode call, the
counter zeroed, and the mode wrapped back to 0 by max_mode = 0. -/
theorem tryChangeMode_fire (s : AppState) (ha : s.autoChangeMode = true)
    (hgt : s.iterations > iterations_per_mode) (hm : s.mode = 0) :
    (tryChangeMode s).changeCount = s.changeCount + 1 ∧
    (tryChangeMode s).iterations = 0 ∧ (tryChangeMode s).mode = 0 := by
  unfold tryChangeMode
  rw [if_pos ⟨ha, hgt⟩]
  dsimp only
  rw [hm]
  refine ⟨?_, ?_, ?_⟩ <;>
    simp [max_mode, changeMode_changeCount, changeMode_iterations, changeMode_mode]

/-- C4 amended: the first automatic transition fires on tick 502 (the
counter must strictly exceed 500 when the frame starts), exactly one
changeMode call has then happened and the counter was reset to 0 at it;
and because max_mode is 0 the one-element cycle re-enters mode 0 through
changeMode(0) instead of advancing to a different mode. -/
theorem C4_amended_transition_at_tick_502 :
    (ticks 502).changeCount = 1 ∧ (ticks 502).iterations = 0 ∧ (ticks 502).mode = 0 ∧
    (ticks 501).changeCount = 0 := by
  obtain ⟨h1, h2, h3, h4⟩ := ticks_char 501 le_rfl
  have hgt : (ticks 501).iterations > iterations_per_mode := by
    rw [h1]
    norm_num [iterations_per_mode]
  obtain ⟨hc, hi, hmo⟩ := tryChangeMode_fire (ticks 501) h4 hgt h3
  refine ⟨?_, ?_, ?_, h2⟩
  · rw [show ticks 502 = tryChangeMode (ticks 501) from rfl, hc, h2]
  · rw [show ticks 502 = tryChangeMode (ticks 501) from rfl, hi]
  · rw [show ticks 502 = tryChangeMode (ticks 501) from rfl, hmo]

/-- Expansion of a six-term range sum, the user count of the compositor. -/
theorem sum_range_six (f : Nat → ℚ) :
    ∑ i ∈ Finset.range 6, f i = f 0 + f 1 + f 2 + f 3 + f 4 + f 5 := by
  simp [Finset.sum_range_succ]

/-- C9: the compositor returns, for each RGB channel, the unclamped sum
over all MAX_USERS slots of the palette weight times that slot's density
at the cell (first conjunct); in particular, when every slot other than u
has zero density at the cell, the result is exactly palette[u] scaled by
the density of u, with no contribution from other slots (second
conjunct). -/
theorem C9_weighted_color_sum :
    ∀ (w : Bool) (d : Nat → Int → Int → ℚ) (x y : Int),
      getWeightedColor w d x y =
        (∑ i ∈ Finset.range MAX_USERS, (palette w i).1 * d i x y,
         ∑ i ∈ Finset.range MAX_USERS, (palette w i).2.1 * d i x y,
         ∑ i ∈ Finset.range MAX_USERS, (palette w i).2.2 * d i x y) ∧
      (∀ (u : Nat) (dv : ℚ), u < MAX_USERS →
        (∀ i, i < MAX_USERS → i ≠ u → d i x y = 0) → d u x y = dv →
        getWeightedColor w d x y =
          ((palette w u).1 * dv, (palette w u).2.1 * dv, (palette w u).2.2 * dv)) := by
  intro w d x y
  have hsum : getWeightedColor w d x y =
      (∑ i ∈ Finset.range MAX_USERS, (palette w i).1 * d i x y,
       ∑ i ∈ Finset.range MAX_USERS, (palette w i).2.1 * d i x y,
       ∑ i ∈ Finset.range MAX_USERS, (palette w i).2.2 * d i x y) := by
    unfold getWeightedColor
    rw [show List.range MAX_USERS = [0, 1, 2, 3, 4, 5] from rfl]
    simp only [List.foldl_cons, List.foldl_nil]
    rw [show MAX_USERS = 6 from rfl, sum_range_six, sum_range_six, sum_range_six]
    simp only [Prod.mk.injEq]
    refine ⟨by ring, by ring, by ring⟩
  refine ⟨hsum, ?_⟩
  intro u dv hu hz hd
  have key1 : ∑ i ∈ Finset.range MAX_USERS, (palette w i).1 * d i x y =
      (palette w u).1 * dv := by
    rw [Finset.sum_eq_single_of_mem u (Finset.mem_range.mpr hu)
      (fun b hb hbne => by rw [hz b (Finset.mem_range.mp hb) hbne, mul_zero]), hd]
  have key2 : ∑ i ∈ Finset.range MAX_USERS, (palette w i).2.1 * d i x y =
      (palette w u).2.1 * dv := by
    rw [Finset.sum_eq_single_of_mem u (Finset.mem_range.mpr hu)
      (fun b hb hbne => by rw [hz b (Finset.mem_range.mp hb) hbne, mul_zero]), hd]
  have key3 : ∑ i ∈ Finset.range MAX_USERS, (palette w i).2.2 * d i x y =
      (palette w u).2.2 * dv := by
    rw [Finset.sum_eq_single_of_mem u (Finset.mem_range.mpr hu)
      (fun b hb hbne => by rw [hz b (Finset.mem_range.mp hb) hbne, mul_zero]), hd]
  rw [hsum, key1, key2, key3]

/-- C9 witness: with only user slot 1 holding density 3 and the dark
palette, the composited color is the slot 1 palette entry scaled by 3. -/
theorem C9_witness : getWeightedColor false densOneUser 5 5 = (0, 3, 3) := by
  have h := (C9_weighted_color_sum false densOneUser 5 5).2 1 3 (by decide)
    (fun i _ hne => by simp [densOneUser, hne]) (by simp [densOneUser])
  rw [h]
  norm_num [palette, Colors]

end FluidWall
